import Mathlib

/-!
Verification of the Kenjector core (src/logic/kenjector.rs) against its
natural-language specification.

The Rust code drives Win32 calls (CreateToolhelp32Snapshot, OpenProcess,
VirtualAllocEx, WriteProcessMemory, CreateRemoteThread, GetExitCodeThread,
OpenProcessToken, GetTokenInformation, IsWow64Process2, file reading and PE
parsing).  Each OS call is modelled by an oracle field recording what the OS
would answer; the control flow, error strings, handle bookkeeping and result
construction are translated statement for statement from the source.  OS
handles are tracked as an event trace (opened/closed, by handle kind) so that
release-on-every-path properties are statements about the trace.
-/

namespace Kenjector

/-- CPU architecture classification, from `enum Arch` in kenjector.rs
(AMDx64, AMDx86, Arm64, Unknown). -/
inductive Arch
  | AMDx64
  | AMDx86
  | Arm64
  | Unknown
  deriving DecidableEq, Repr

/-- Handle-rights bundle, from `enum Access` (PROCESS_ALL_ACCESS and
PROCESS_QUERY_LIMITED_INFORMATION). -/
inductive Access
  | Full
  | Limited
  deriving DecidableEq, Repr

/-- The kinds of OS handles the core opens: toolhelp snapshot, process
handles (by requested rights), token and thread handles. -/
inductive HKind
  | snapshot
  | processFull
  | processLimited
  | token
  | thread
  deriving DecidableEq, Repr, BEq

/-- One handle event: a handle of kind `k` was opened or closed. -/
inductive HEvent
  | opened (k : HKind)
  | closed (k : HKind)
  deriving DecidableEq, Repr, BEq

/-- How many handles of kind `k` a trace opens. -/
def openCount (t : List HEvent) (k : HKind) : Nat :=
  (t.filter (fun e => e == HEvent.opened k)).length

/-- How many handles of kind `k` a trace closes. -/
def closeCount (t : List HEvent) (k : HKind) : Nat :=
  (t.filter (fun e => e == HEvent.closed k)).length

/-- The HKind a process handle of the given access rights is recorded as. -/
def Access.hkind : Access → HKind
  | .Full => .processFull
  | .Limited => .processLimited

/-- Machine constant IMAGE_FILE_MACHINE_UNKNOWN (winnt.h). -/
def IMAGE_FILE_MACHINE_UNKNOWN : Nat := 0x0
/-- Machine constant IMAGE_FILE_MACHINE_I386 (winnt.h). -/
def IMAGE_FILE_MACHINE_I386 : Nat := 0x14c
/-- Machine constant IMAGE_FILE_MACHINE_AMD64 (winnt.h). -/
def IMAGE_FILE_MACHINE_AMD64 : Nat := 0x8664
/-- Machine constant IMAGE_FILE_MACHINE_ARM64 (winnt.h). -/
def IMAGE_FILE_MACHINE_ARM64 : Nat := 0xaa64
/-- Characteristics flag IMAGE_FILE_DLL (goblin::pe::characteristic). -/
def IMAGE_FILE_DLL : Nat := 0x2000

/-- One process descriptor, from `struct ProcessInfo`.  The gtk Paintable
icon is abstracted to `Option Unit` (present or absent); nothing about it
matters beyond presence. -/
structure ProcessInfo where
  icon : Option Unit
  elevated : Bool
  name : String
  arch : Arch
  process_id : Nat
  deriving DecidableEq, Repr

/-- The injection request, from `struct KenjectionInfo`. -/
structure KenjectionInfo where
  name : String
  process_id : Nat
  deriving DecidableEq, Repr

/-- Oracle for one IsWow64Process2 query on a process handle: whether the
call succeeds and the two machine values it writes. -/
structure ArchQuery where
  isWow64Ok : Bool
  processMachine : Nat
  nativeMachine : Nat
  deriving DecidableEq, Repr

/-- Oracle for one token inspection: whether OpenProcessToken succeeds,
whether GetTokenInformation succeeds, and the TokenIsElevated DWORD. -/
structure TokenQuery where
  openTokenOk : Bool
  getInfoOk : Bool
  tokenIsElevated : Nat
  deriving DecidableEq, Repr

/-- One PROCESSENTRY32 as the toolhelp enumeration yields it, together with
the per-process oracle answers the loop body of get_processes consumes.
`szExeFile` is the lossy decoding of the entry name bytes; `utf8Valid` says
whether `CStr::to_str` on those bytes succeeds (when it does, it yields
`szExeFile` itself). -/
structure ProcEntry where
  th32ProcessID : Nat
  szExeFile : String
  utf8Valid : Bool
  openLimited : Bool
  tok : TokenQuery
  archq : ArchQuery
  iconOpenFull : Bool
  iconSome : Bool
  deriving DecidableEq, Repr

/-- Oracle for one CreateToolhelp32Snapshot pass: whether the snapshot
handle is obtained, and the entries successfully read from it
(Process32First fails exactly when `entries` is empty; Process32Next fails
after the last entry). -/
structure Snapshot where
  snapshotOk : Bool
  entries : List ProcEntry
  deriving DecidableEq, Repr

/-- ASCII lowercasing of one character, as Rust `eq_ignore_ascii_case`
folds bytes. -/
def asciiLower (c : Char) : Char :=
  if 65 ≤ c.toNat && c.toNat ≤ 90 then Char.ofNat (c.toNat + 32) else c

/-- Rust `str::eq_ignore_ascii_case`: equality after ASCII case folding. -/
def eqIgnoreAsciiCase (a b : String) : Bool :=
  a.data.map asciiLower == b.data.map asciiLower

/-- `Kenjector::open_process` (kenjector.rs lines 148-151): OpenProcess with
the requested rights; `osYieldsHandle` is the oracle for whether the OS
returns a non-null handle.  On success the returned Bool is the non-null
test of the handle (always true), and the trace records the opened handle;
on failure the error string carries the pid, and nothing was opened. -/
def open_process (osYieldsHandle : Bool) (access : Access) (process_id : Nat) :
    Except String Bool × List HEvent :=
  if osYieldsHandle then
    (Except.ok true, [HEvent.opened access.hkind])
  else
    (Except.error ("Failed to retrieve handle of the process, process_id "
      ++ toString process_id), [])

/-- `Kenjector::is_elevated` (lines 210-231): open the process token with
TOKEN_QUERY, read TokenElevation, close the token on both the
GetTokenInformation-failure path and the success path.  A failed
OpenProcessToken opens nothing. -/
def is_elevated (q : TokenQuery) : Except String Bool × List HEvent :=
  if q.openTokenOk = false then
    (Except.error "Failed to open process token", [])
  else if q.getInfoOk = false then
    (Except.error "Failed to get token information",
      [HEvent.opened HKind.token, HEvent.closed HKind.token])
  else
    (Except.ok (q.tokenIsElevated != 0),
      [HEvent.opened HKind.token, HEvent.closed HKind.token])

/-- The INTENDED (process machine, native machine) table: what the match
arms of `Kenjector::architecture` (lines 243-249) spell out, read with the
four machine constants at their winnt.h values, and what the spec documents
as the mapping.  The real program does not realize this table (see
`architecture` below): this definition exists to state the divergence. -/
def archOfMachines (processMachine nativeMachine : Nat) : Arch :=
  if processMachine == IMAGE_FILE_MACHINE_UNKNOWN
      && nativeMachine == IMAGE_FILE_MACHINE_AMD64 then Arch.AMDx64
  else if processMachine == IMAGE_FILE_MACHINE_I386
      && nativeMachine == IMAGE_FILE_MACHINE_AMD64 then Arch.AMDx86
  else if processMachine == IMAGE_FILE_MACHINE_I386
      && nativeMachine == IMAGE_FILE_MACHINE_I386 then Arch.AMDx86
  else if processMachine == IMAGE_FILE_MACHINE_UNKNOWN
      && nativeMachine == IMAGE_FILE_MACHINE_ARM64 then Arch.Arm64
  else Arch.Unknown

/-- `Kenjector::architecture` (lines 233-250): IsWow64Process2 failing is
an error; every arm of the following match is Ok.  The use list at
kenjector.rs line 5 imports only IMAGE_FILE_MACHINE_I386, so the names
IMAGE_FILE_MACHINE_UNKNOWN, IMAGE_FILE_MACHINE_AMD64 and
IMAGE_FILE_MACHINE_ARM64 in the match arms are unresolved identifiers and
therefore fresh binding patterns in Rust: the first arm, two bindings, is
irrefutable, the later arms are unreachable (rustc warns
unreachable-pattern and non-snake-case), and the function returns
Ok(Arch::AMDx64) for every machine pair. -/
def architecture (q : ArchQuery) : Except String Arch :=
  if q.isWow64Ok = false then
    Except.error "IsWow64Process2 failed"
  else
    Except.ok Arch.AMDx64

/-- The loop of `Kenjector::get_pid` (lines 129-141): walk the entries; the
first one whose name bytes decode (CStr::to_str is Ok) and compare equal
case-insensitively yields its pid; the loop breaks when Process32Next fails,
leaving the not-found error (line 144). -/
def pidLoop (name : String) : List ProcEntry → Except String Nat
  | [] => Except.error "Process not found"
  | e :: rest =>
    if e.utf8Valid && eqIgnoreAsciiCase e.szExeFile name then
      Except.ok e.th32ProcessID
    else
      pidLoop name rest

/-- `Kenjector::get_pid` (lines 114-146).  The snapshot handle is closed on
the first-entry-failure path (line 125), the match path (line 133) and the
exhausted path (line 143) alike.  Error strings keep the literal prefixes of
the source (the appended dynamic OS error code is not modelled). -/
def get_pid (snap : Snapshot) (name : String) : Except String Nat × List HEvent :=
  if snap.snapshotOk = false then
    (Except.error "CreateToolhelp32Snapshot failed", [])
  else if snap.entries.isEmpty then
    (Except.error "Process32First failed",
      [HEvent.opened HKind.snapshot, HEvent.closed HKind.snapshot])
  else
    (pidLoop name snap.entries,
      [HEvent.opened HKind.snapshot, HEvent.closed HKind.snapshot])

/-- `Kenjector::get_process_icon` (lines 335-347): open the process with
PROCESS_ALL_ACCESS (a failed open yields None); on success extract and
convert the icon (`iconSome` abstracts GetModuleFileNameExW, ExtractIconExW
and the GDI conversion succeeding).  The source never calls CloseHandle on
this process handle, so the trace records the open and no close.  GDI
objects (icons, bitmaps, DCs) are not process/token/thread/snapshot handles
and stay outside the trace. -/
def get_process_icon (e : ProcEntry) : Option Unit × List HEvent :=
  if e.iconOpenFull then
    ((if e.iconSome then some () else none), [HEvent.opened HKind.processFull])
  else
    (none, [])

/-- The loop body of `Kenjector::get_processes` (lines 173-195): defaults
`arch = Unknown`, `elevated = true`; a successful limited-rights open runs
is_elevated and architecture, each failure falling back to the default; the
name is the lossy decoding of szExeFile; the pushed descriptor carries the
icon.  The limited process handle is never closed by the source. -/
def describeEntry (e : ProcEntry) : ProcessInfo × List HEvent :=
  let opened := open_process e.openLimited Access.Limited e.th32ProcessID
  let queried :
      (Bool × Arch) × List HEvent :=
    match opened.fst with
    | Except.ok _ =>
      let elev := is_elevated e.tok
      let elevated :=
        match elev.fst with
        | Except.ok v => v
        | Except.error _ => true
      let arch :=
        match architecture e.archq with
        | Except.ok v => v
        | Except.error _ => Arch.Unknown
      ((elevated, arch), elev.snd)
    | Except.error _ => ((true, Arch.Unknown), [])
  let icon := get_process_icon e
  ({ icon := icon.fst, elevated := queried.fst.fst, name := e.szExeFile,
     arch := queried.fst.snd, process_id := e.th32ProcessID },
    opened.snd ++ queried.snd ++ icon.snd)

/-- `Kenjector::get_processes` (lines 153-208).  A failed snapshot returns
the empty vector with nothing opened; a failed Process32First returns the
empty vector early, WITHOUT the CloseHandle(snapshot) of line 204 (the
early return at line 170 skips it); otherwise every entry yields one
descriptor and the snapshot is closed at the end. -/
def get_processes (snap : Snapshot) : List ProcessInfo × List HEvent :=
  if snap.snapshotOk = false then
    ([], [])
  else if snap.entries.isEmpty then
    ([], [HEvent.opened HKind.snapshot])
  else
    let per := snap.entries.map describeEntry
    (per.map Prod.fst,
      [HEvent.opened HKind.snapshot] ++ (per.map Prod.snd).flatten
        ++ [HEvent.closed HKind.snapshot])

/-- Whether a Rust String contains an interior NUL byte, the condition under
which `CString::new` fails. -/
def hasNulByte (s : String) : Bool :=
  s.data.contains (Char.ofNat 0)

/-- Uppercase hexadecimal rendering of a Nat, as Rust formats with the X
format specifier. -/
def toHexUpper (n : Nat) : String :=
  String.mk ((Nat.toDigits 16 n).map
    (fun c => if 97 ≤ c.toNat && c.toNat ≤ 122 then Char.ofNat (c.toNat - 32) else c))

/-- Outcome of a call to kennject: the Ok string, the Err string, or a
panic (an abnormal termination, as `.unwrap()` on an Err produces). -/
inductive Outcome
  | ok (s : String)
  | err (s : String)
  | panicked
  deriving DecidableEq, Repr

/-- Oracle for one kennject run: the snapshot get_pid consumes, whether
OpenProcess(PROCESS_ALL_ACCESS, pid) yields a handle (as a function of the
pid asked for), whether VirtualAllocEx / WriteProcessMemory / GetProcAddress
/ CreateRemoteThread / GetExitCodeThread succeed, and the value LoadLibraryA
returns inside the target (the loaded module base, a full-width address).
GetExitCodeThread writes a u32, hence delivers `remoteBase` reduced mod
2^32. -/
structure KennjectOS where
  snap : Snapshot
  openFull : Nat → Bool
  allocOk : Bool
  writeOk : Bool
  loadLibraryOk : Bool
  threadOk : Bool
  getExitOk : Bool
  remoteBase : Nat

/-- `Kenjector::kennject` (lines 54-112), statement for statement.  `path`
is the result of `PathBuf::to_str` (None when the path is not valid
unicode).  Note line 61 of the source: the Except from open_process is
`.unwrap()`ed, so an OpenProcess failure panics and the null-handle check of
lines 62-64 (kept here as the `hNonNull = false` branch) is unreachable.
Error strings keep the literal prefixes of the source.  The trace records
the snapshot events of get_pid and the full process / remote thread handles
of kennject itself. -/
def kennject (os : KennjectOS) (info : KenjectionInfo) (path : Option String) :
    Outcome × List HEvent :=
  let pidRes := get_pid os.snap info.name
  match pidRes.fst with
  | Except.error e => (Outcome.err ("Failed to get PID: " ++ e), pidRes.snd)
  | Except.ok process_id =>
    match path with
    | none => (Outcome.err "Invalid DLL path", pidRes.snd)
    | some dll_str =>
      if hasNulByte dll_str then
        (Outcome.err "CString conversion failed", pidRes.snd)
      else
        let opened := open_process (os.openFull process_id) Access.Full process_id
        match opened.fst with
        | Except.error _ => (Outcome.panicked, pidRes.snd ++ opened.snd)
        | Except.ok hNonNull =>
          if hNonNull = false then
            (Outcome.err "OpenProcess failed", pidRes.snd ++ opened.snd)
          else if os.allocOk = false then
            (Outcome.err "VirtualAllocEx failed",
              pidRes.snd ++ opened.snd ++ [HEvent.closed HKind.processFull])
          else if os.writeOk = false then
            (Outcome.err "WriteProcessMemory failed",
              pidRes.snd ++ opened.snd ++ [HEvent.closed HKind.processFull])
          else if os.loadLibraryOk = false then
            (Outcome.err "GetProcAddress failed",
              pidRes.snd ++ opened.snd ++ [HEvent.closed HKind.processFull])
          else if os.threadOk = false then
            (Outcome.err "CreateRemoteThread failed",
              pidRes.snd ++ opened.snd ++ [HEvent.closed HKind.processFull])
          else
            let remote_result := os.remoteBase % 4294967296
            let t := pidRes.snd ++ opened.snd
              ++ [HEvent.opened HKind.thread, HEvent.closed HKind.thread,
                  HEvent.closed HKind.processFull]
            if os.getExitOk = false then
              (Outcome.ok "GetExitCodeThread failed.", t)
            else if remote_result = 0 then
              (Outcome.ok "LoadLibraryA failed — did not load DLL.", t)
            else
              (Outcome.ok ("DLL Kenjected successfully at 0x"
                ++ toHexUpper remote_result), t)

/-- PE header data is_pe_dll consumes: the COFF characteristics word. -/
structure PeHeaderInfo where
  characteristics : Nat
  deriving DecidableEq, Repr

/-- `Kenjector::is_pe_dll` (lines 252-256): read the file (oracle
`readResult`, an IO error when the file cannot be read), parse the bytes as
a PE image (`parse`, an error for malformed bytes), and report whether the
COFF characteristics carry IMAGE_FILE_DLL. -/
def is_pe_dll (readResult : Except String (List Nat))
    (parse : List Nat → Except String PeHeaderInfo) : Except String Bool :=
  match readResult with
  | Except.error e => Except.error e
  | Except.ok bytes =>
    match parse bytes with
    | Except.error e => Except.error e
    | Except.ok pe => Except.ok (Nat.land pe.characteristics IMAGE_FILE_DLL != 0)

/-! ### Helper lemmas -/

/-- Head character of an appended string is the head of the first part. -/
theorem string_head_append (p t : String) (c : Char) (h : p.data.head? = some c) :
    (p ++ t).data.head? = some c := by
  obtain ⟨pd⟩ := p
  obtain ⟨td⟩ := t
  cases pd with
  | nil => simp at h
  | cons a as => exact h

/-- The success-address outcome string never collides with the
GetExitCodeThread-failure outcome string. -/
theorem success_msg_ne_got (m : Nat) :
    "DLL Kenjected successfully at 0x" ++ toHexUpper m ≠ "GetExitCodeThread failed." := by
  intro h
  have h1 := string_head_append "DLL Kenjected successfully at 0x" (toHexUpper m) 'D'
    (by decide)
  rw [h] at h1
  exact absurd h1 (by decide)

/-- The success-address outcome string never collides with the
loader-returned-zero outcome string. -/
theorem success_msg_ne_load (m : Nat) :
    "DLL Kenjected successfully at 0x" ++ toHexUpper m
      ≠ "LoadLibraryA failed — did not load DLL." := by
  intro h
  have h1 := string_head_append "DLL Kenjected successfully at 0x" (toHexUpper m) 'D'
    (by decide)
  rw [h] at h1
  exact absurd h1 (by decide)

/-- The pid loop on a list with no matching entry ends in the not-found
error. -/
theorem pidLoop_no_match (name : String) (l : List ProcEntry)
    (h : ∀ e ∈ l, (e.utf8Valid && eqIgnoreAsciiCase e.szExeFile name) = false) :
    pidLoop name l = Except.error "Process not found" := by
  induction l with
  | nil => rfl
  | cons e rest ih =>
    rw [pidLoop, h e (List.mem_cons_self e rest)]
    simp only [Bool.false_eq_true, if_false]
    exact ih fun x hx => h x (List.mem_cons_of_mem e hx)

/-- The pid loop returns the pid of the first matching entry, whatever
follows it. -/
theorem pidLoop_first_match (name : String) (pre : List ProcEntry) (e : ProcEntry)
    (rest : List ProcEntry)
    (hpre : ∀ x ∈ pre, (x.utf8Valid && eqIgnoreAsciiCase x.szExeFile name) = false)
    (he : (e.utf8Valid && eqIgnoreAsciiCase e.szExeFile name) = true) :
    pidLoop name (pre ++ e :: rest) = Except.ok e.th32ProcessID := by
  induction pre with
  | nil => rw [List.nil_append, pidLoop, he]; simp
  | cons x xs ih =>
    rw [List.cons_append, pidLoop, hpre x (List.mem_cons_self x xs)]
    simp only [Bool.false_eq_true, if_false]
    exact ih fun y hy => hpre y (List.mem_cons_of_mem x hy)

/-- A successful, non-empty enumeration makes get_pid run the loop. -/
theorem get_pid_run (snap : Snapshot) (name : String)
    (hs : snap.snapshotOk = true) (hne : snap.entries ≠ []) :
    (get_pid snap name).fst = pidLoop name snap.entries := by
  rw [get_pid]
  simp [hs, List.isEmpty_iff, hne]

/-- A successful, non-empty enumeration makes get_processes emit one
descriptor per entry. -/
theorem get_processes_run (snap : Snapshot) (hs : snap.snapshotOk = true)
    (hne : snap.entries ≠ []) :
    (get_processes snap).fst = snap.entries.map (fun e => (describeEntry e).fst) := by
  rw [get_processes]
  simp [hs, List.isEmpty_iff, hne, List.map_map, Function.comp]

/-- Unfolding of kennject once the pid has resolved, the path converted and
every stage up to CreateRemoteThread succeeded: only the exit-code reading
remains. -/
theorem kennject_reach (os : KennjectOS) (info : KenjectionInfo) (dll : String)
    (pid : Nat)
    (hpid : (get_pid os.snap info.name).fst = Except.ok pid)
    (hnul : hasNulByte dll = false)
    (hopen : os.openFull pid = true)
    (halloc : os.allocOk = true) (hwrite : os.writeOk = true)
    (hload : os.loadLibraryOk = true) (hthread : os.threadOk = true) :
    (kennject os info (some dll)).fst =
      (if os.getExitOk = false then Outcome.ok "GetExitCodeThread failed."
       else if os.remoteBase % 4294967296 = 0 then
         Outcome.ok "LoadLibraryA failed — did not load DLL."
       else Outcome.ok ("DLL Kenjected successfully at 0x"
         ++ toHexUpper (os.remoteBase % 4294967296))) := by
  rw [kennject]
  simp only [hpid, hnul, Bool.false_eq_true, if_false, hopen, open_process, if_true,
    halloc, hwrite, hload, hthread]
  by_cases hg : os.getExitOk = false <;>
    by_cases hz : os.remoteBase % 4294967296 = 0 <;> simp [hg, hz]

/-- The descriptor name and pid are copied verbatim from the entry. -/
theorem describeEntry_name_pid (e : ProcEntry) :
    (describeEntry e).fst.name = e.szExeFile ∧
    (describeEntry e).fst.process_id = e.th32ProcessID :=
  ⟨rfl, rfl⟩

/-- A failed limited-rights open leaves the conservative defaults. -/
theorem describeEntry_no_handle (e : ProcEntry) (h : e.openLimited = false) :
    (describeEntry e).fst.elevated = true ∧ (describeEntry e).fst.arch = Arch.Unknown := by
  constructor <;> simp [describeEntry, open_process, h]

/-- A failed token inspection leaves elevated = true. -/
theorem describeEntry_token_fail (e : ProcEntry) (h : e.openLimited = true)
    (ht : e.tok.openTokenOk = false ∨ e.tok.getInfoOk = false) :
    (describeEntry e).fst.elevated = true := by
  rcases ht with ht | ht
  · simp [describeEntry, open_process, is_elevated, h, ht]
  · by_cases ho : e.tok.openTokenOk = false
    · simp [describeEntry, open_process, is_elevated, h, ho]
    · simp [describeEntry, open_process, is_elevated, h, ho, ht]

/-- A failed IsWow64Process2 query leaves arch = Unknown. -/
theorem describeEntry_arch_fail (e : ProcEntry) (h : e.openLimited = true)
    (ha : e.archq.isWow64Ok = false) :
    (describeEntry e).fst.arch = Arch.Unknown := by
  simp [describeEntry, open_process, architecture, h, ha]

/-! ### The claims -/

/-- Oracle for the C1 run: the target name resolves, but
OpenProcess(PROCESS_ALL_ACCESS) yields no handle (the typical
access-denied case of an elevated or protected target). -/
def c1entry : ProcEntry :=
  { th32ProcessID := 4242, szExeFile := "notepad.exe", utf8Valid := true,
    openLimited := true, tok := ⟨true, true, 0⟩, archq := ⟨true, 0, 0x8664⟩,
    iconOpenFull := true, iconSome := true }

/-- Oracle for the C1 run, full rights denied for every pid. -/
def c1os : KennjectOS :=
  { snap := { snapshotOk := true, entries := [c1entry] },
    openFull := fun _ => false, allocOk := true, writeOk := true,
    loadLibraryOk := true, threadOk := true, getExitOk := true, remoteBase := 0 }

/-- C1: when OpenProcess yields no handle, kennject does NOT return the
OpenProcess-failure error of kenjector.rs lines 62-64: the `.unwrap()` at
line 61 panics first (abnormal termination), so the claimed error result is
unreachable.  This demonstrates the divergence of the code from the claim at
a concrete input. -/
theorem kennject_open_process_failure_panics :
    (kennject c1os { name := "notepad.exe", process_id := 4242 }
      (some "C:\\mod.dll")).fst = Outcome.panicked := by decide

/-- Entry for the C2 run: one ordinary process the limited-rights open
succeeds on, whose icon lookup also opens a full-rights handle. -/
def c2entry : ProcEntry :=
  { th32ProcessID := 4, szExeFile := "System", utf8Valid := true,
    openLimited := true, tok := ⟨true, true, 1⟩, archq := ⟨true, 0, 0x8664⟩,
    iconOpenFull := true, iconSome := false }

/-- C2: get_processes leaks handles.  On a pass whose Process32First fails
(no entries readable) the snapshot handle is opened and never closed (the
early return at kenjector.rs line 170 skips the CloseHandle of line 204);
and on a normal pass the limited-rights process handle opened at line 178
and the full-rights handle opened inside get_process_icon (line 338) are
never closed at all. -/
theorem get_processes_leaks_handles :
    (openCount (get_processes { snapshotOk := true, entries := [] }).snd
        HKind.snapshot = 1 ∧
     closeCount (get_processes { snapshotOk := true, entries := [] }).snd
        HKind.snapshot = 0) ∧
    (openCount (get_processes { snapshotOk := true, entries := [c2entry] }).snd
        HKind.processLimited = 1 ∧
     closeCount (get_processes { snapshotOk := true, entries := [c2entry] }).snd
        HKind.processLimited = 0) ∧
    (openCount (get_processes { snapshotOk := true, entries := [c2entry] }).snd
        HKind.processFull = 1 ∧
     closeCount (get_processes { snapshotOk := true, entries := [c2entry] }).snd
        HKind.processFull = 0) := by decide

/-- C5: the claimed mapping fails on the code.  Because the non-I386
machine constants are not imported (kenjector.rs line 5), the first match
arm of architecture is an irrefutable pair of binding patterns, so whenever
IsWow64Process2 succeeds the function returns Ok(Arch::AMDx64) regardless
of the machine pair — it never consults the intended table archOfMachines
that the claim (and the spec) describe, and no input yields Ok Unknown. -/
theorem architecture_ignores_machine_pair (q : ArchQuery) (h : q.isWow64Ok = true) :
    architecture q = Except.ok Arch.AMDx64 := by
  simp [architecture, h]

/-- Witness for C5 at the failing input, the 32-bit-on-64-bit pairing
(I386, AMD64): the program answers AMDx64 while the intended table of the
match arms (and of the spec) answers AMDx86. -/
theorem architecture_ignores_machine_pair_witness :
    architecture { isWow64Ok := true, processMachine := 0x14c, nativeMachine := 0x8664 } =
      Except.ok Arch.AMDx64 ∧
    archOfMachines 0x14c 0x8664 = Arch.AMDx86 :=
  ⟨architecture_ignores_machine_pair
    { isWow64Ok := true, processMachine := 0x14c, nativeMachine := 0x8664 } rfl,
   by decide⟩

/-- C6: get_processes fails closed.  A failed snapshot or a failed first
entry yields the empty list (no error is possible: the function returns a
plain list); otherwise it emits exactly one descriptor per enumerated
entry, and a descriptor falls back to elevated = true and arch = Unknown
whenever the limited open or the per-process query fails. -/
theorem get_processes_fails_closed (snap : Snapshot) :
    (snap.snapshotOk = false → (get_processes snap).fst = []) ∧
    (snap.entries = [] → (get_processes snap).fst = []) ∧
    (snap.snapshotOk = true → snap.entries ≠ [] →
      (get_processes snap).fst = snap.entries.map (fun e => (describeEntry e).fst)) ∧
    (∀ e : ProcEntry,
      ((describeEntry e).fst.name = e.szExeFile ∧
       (describeEntry e).fst.process_id = e.th32ProcessID) ∧
      (e.openLimited = false →
        (describeEntry e).fst.elevated = true ∧
        (describeEntry e).fst.arch = Arch.Unknown) ∧
      (e.openLimited = true → (e.tok.openTokenOk = false ∨ e.tok.getInfoOk = false) →
        (describeEntry e).fst.elevated = true) ∧
      (e.openLimited = true → e.archq.isWow64Ok = false →
        (describeEntry e).fst.arch = Arch.Unknown)) := by
  refine ⟨?_, ?_, ?_, ?_⟩
  · intro h; simp [get_processes, h]
  · intro h
    cases hs : snap.snapshotOk <;> simp [get_processes, hs, h]
  · intro hs hne
    rw [get_processes]
    simp [hs, List.isEmpty_iff, hne, List.map_map, Function.comp]
  · intro e
    exact ⟨describeEntry_name_pid e, describeEntry_no_handle e,
      describeEntry_token_fail e, describeEntry_arch_fail e⟩

/-- C7: is_pe_dll propagates a read failure and a parse failure as errors,
and for a well-formed image returns Ok of exactly the IMAGE_FILE_DLL test
on the COFF characteristics: Ok false for an executable without the
library flag, Ok true with it. -/
theorem is_pe_dll_spec (readResult : Except String (List Nat))
    (parse : List Nat → Except String PeHeaderInfo) :
    (∀ e, readResult = Except.error e → is_pe_dll readResult parse = Except.error e) ∧
    (∀ bytes e, readResult = Except.ok bytes → parse bytes = Except.error e →
      is_pe_dll readResult parse = Except.error e) ∧
    (∀ bytes pe, readResult = Except.ok bytes → parse bytes = Except.ok pe →
      (Nat.land pe.characteristics IMAGE_FILE_DLL = 0 →
        is_pe_dll readResult parse = Except.ok false) ∧
      (Nat.land pe.characteristics IMAGE_FILE_DLL ≠ 0 →
        is_pe_dll readResult parse = Except.ok true)) := by
  refine ⟨?_, ?_, ?_⟩
  · intro e h; simp [is_pe_dll, h]
  · intro bytes e h1 h2; simp [is_pe_dll, h1, h2]
  · intro bytes pe h1 h2
    constructor
    · intro hz; simp [is_pe_dll, h1, h2, hz]
    · intro hnz; simp [is_pe_dll, h1, h2, hnz]

/-- C3: once kennject reaches the exit-code reading, the result is an Ok
outcome string in exactly the three cases of kenjector.rs lines 104-110 —
exit code unreadable, exit code zero (loader ran, module not loaded), and
non-zero exit code with the hexadecimal address — the result is never an
Err there, and the three strings are pairwise distinct. -/
theorem kennject_exit_code_three_outcomes (os : KennjectOS) (info : KenjectionInfo)
    (dll : String) (pid : Nat)
    (hpid : (get_pid os.snap info.name).fst = Except.ok pid)
    (hnul : hasNulByte dll = false)
    (hopen : os.openFull pid = true)
    (halloc : os.allocOk = true) (hwrite : os.writeOk = true)
    (hload : os.loadLibraryOk = true) (hthread : os.threadOk = true) :
    ((os.getExitOk = false →
        (kennject os info (some dll)).fst = Outcome.ok "GetExitCodeThread failed.") ∧
     (os.getExitOk = true → os.remoteBase % 4294967296 = 0 →
        (kennject os info (some dll)).fst =
          Outcome.ok "LoadLibraryA failed — did not load DLL.") ∧
     (os.getExitOk = true → os.remoteBase % 4294967296 ≠ 0 →
        (kennject os info (some dll)).fst =
          Outcome.ok ("DLL Kenjected successfully at 0x"
            ++ toHexUpper (os.remoteBase % 4294967296)))) ∧
    (∀ s, (kennject os info (some dll)).fst ≠ Outcome.err s) ∧
    (("GetExitCodeThread failed." : String)
        ≠ "LoadLibraryA failed — did not load DLL." ∧
     (∀ m : Nat, "DLL Kenjected successfully at 0x" ++ toHexUpper m
        ≠ "GetExitCodeThread failed.") ∧
     (∀ m : Nat, "DLL Kenjected successfully at 0x" ++ toHexUpper m
        ≠ "LoadLibraryA failed — did not load DLL.")) := by
  have hr := kennject_reach os info dll pid hpid hnul hopen halloc hwrite hload hthread
  refine ⟨⟨?_, ?_, ?_⟩, ?_, by decide, success_msg_ne_got, success_msg_ne_load⟩
  · intro hg; rw [hr, if_pos hg]
  · intro hg hz
    rw [hr, if_neg (by simp [hg]), if_pos hz]
  · intro hg hz
    rw [hr, if_neg (by simp [hg]), if_neg hz]
  · intro s
    rw [hr]
    by_cases hg : os.getExitOk = false <;>
      by_cases hz : os.remoteBase % 4294967296 = 0 <;> simp [hg, hz]

/-- Entry for the C3 and C10 witnesses: a resolvable target. -/
def w3entry : ProcEntry :=
  { th32ProcessID := 4242, szExeFile := "notepad.exe", utf8Valid := true,
    openLimited := true, tok := ⟨true, true, 0⟩, archq := ⟨true, 0, 0x8664⟩,
    iconOpenFull := false, iconSome := false }

/-- Oracle for the C3 witness: every stage succeeds and the remote loader
returns zero. -/
def w3os : KennjectOS :=
  { snap := { snapshotOk := true, entries := [w3entry] },
    openFull := fun _ => true, allocOk := true, writeOk := true,
    loadLibraryOk := true, threadOk := true, getExitOk := true, remoteBase := 0 }

/-- Witness for C3: the loader-returned-zero case is an Ok outcome. -/
theorem kennject_exit_code_three_outcomes_witness :
    (kennject w3os { name := "notepad.exe", process_id := 4242 }
      (some "C:\\mod.dll")).fst =
      Outcome.ok "LoadLibraryA failed — did not load DLL." :=
  ((kennject_exit_code_three_outcomes w3os { name := "notepad.exe", process_id := 4242 }
    "C:\\mod.dll" 4242 rfl (by decide) rfl rfl rfl rfl rfl).1.2.1) rfl rfl

/-- C4: kennject re-resolves the pid by exact ASCII-case-insensitive name
match against the fresh snapshot.  When the enumeration succeeds and NO
entry name matches the request name, kennject fails with the
process-not-found error (a total function: it cannot hang), and the result
is the same whatever the possibly stale pid carried in the request. -/
theorem kennject_process_not_found (os : KennjectOS) (info : KenjectionInfo)
    (path : Option String)
    (hsnap : os.snap.snapshotOk = true)
    (hne : os.snap.entries ≠ [])
    (hnomatch : ∀ e ∈ os.snap.entries,
      (e.utf8Valid && eqIgnoreAsciiCase e.szExeFile info.name) = false) :
    (kennject os info path).fst = Outcome.err "Failed to get PID: Process not found" ∧
    (∀ pid2 : Nat,
      (kennject os { name := info.name, process_id := pid2 } path).fst =
        Outcome.err "Failed to get PID: Process not found") := by
  have hget : (get_pid os.snap info.name).fst = Except.error "Process not found" := by
    rw [get_pid_run os.snap info.name hsnap hne]
    exact pidLoop_no_match info.name os.snap.entries hnomatch
  constructor
  · rw [kennject]
    simp [hget]
  · intro pid2
    rw [kennject]
    simp [show (get_pid os.snap
      ({ name := info.name, process_id := pid2 } : KenjectionInfo).name).fst =
        Except.error "Process not found" from hget]

/-- Entry for the C4 witness: a process whose name does not match. -/
def w4entry : ProcEntry :=
  { th32ProcessID := 9, szExeFile := "b.exe", utf8Valid := true,
    openLimited := true, tok := ⟨true, true, 0⟩, archq := ⟨true, 0, 0x8664⟩,
    iconOpenFull := false, iconSome := false }

/-- Oracle for the C4 witness. -/
def w4os : KennjectOS :=
  { snap := { snapshotOk := true, entries := [w4entry] },
    openFull := fun _ => true, allocOk := true, writeOk := true,
    loadLibraryOk := true, threadOk := true, getExitOk := true, remoteBase := 0 }

/-- Witness for C4 at a concrete non-matching snapshot. -/
theorem kennject_process_not_found_witness :
    (kennject w4os { name := "a.exe", process_id := 7 } (some "C:\\x.dll")).fst =
      Outcome.err "Failed to get PID: Process not found" :=
  (kennject_process_not_found w4os { name := "a.exe", process_id := 7 }
    (some "C:\\x.dll") rfl (by decide) (by decide)).1

/-- A toolhelp-style entry with pid 0, as the System Idle Process entry of a
real snapshot: get_processes filters nothing. -/
def idleEntry : ProcEntry :=
  { th32ProcessID := 0, szExeFile := "[System Process]", utf8Valid := true,
    openLimited := false, tok := ⟨false, false, 0⟩, archq := ⟨false, 0, 0⟩,
    iconOpenFull := false, iconSome := false }

/-- C8 counterexample: a pass over a snapshot holding a pid-0 entry emits a
descriptor with process_id = 0, so the claim that every descriptor has
process_id strictly greater than zero is false of the code. -/
theorem get_processes_pid_zero_counterexample :
    ¬(∀ p ∈ (get_processes { snapshotOk := true, entries := [idleEntry] }).fst,
        p.name ≠ "" ∧ 0 < p.process_id) := by decide

/-- C8 as amended: get_processes copies name and pid verbatim from the
snapshot entries and filters nothing, so when every enumerated entry has a
non-empty name and a positive pid, every emitted descriptor does too. -/
theorem get_processes_name_pid_from_entries (snap : Snapshot)
    (h : ∀ e ∈ snap.entries, e.szExeFile ≠ "" ∧ 0 < e.th32ProcessID) :
    ∀ p ∈ (get_processes snap).fst, p.name ≠ "" ∧ 0 < p.process_id := by
  intro p hp
  cases hs : snap.snapshotOk with
  | false => simp [get_processes, hs] at hp
  | true =>
    by_cases hne : snap.entries = []
    · rw [get_processes] at hp
      simp [hs, hne] at hp
    · rw [get_processes_run snap hs hne] at hp
      obtain ⟨e, he, rfl⟩ := List.mem_map.mp hp
      exact h e he

/-- Entry for the C8 witness. -/
def w8entry : ProcEntry :=
  { th32ProcessID := 5, szExeFile := "a.exe", utf8Valid := true,
    openLimited := false, tok := ⟨false, false, 0⟩, archq := ⟨false, 0, 0⟩,
    iconOpenFull := false, iconSome := false }

/-- Snapshot for the C8 witness. -/
def w8snap : Snapshot := { snapshotOk := true, entries := [w8entry] }

/-- Witness for the amended C8 at a concrete one-entry snapshot. -/
theorem get_processes_name_pid_witness :
    (describeEntry w8entry).fst.name ≠ "" ∧ 0 < (describeEntry w8entry).fst.process_id :=
  get_processes_name_pid_from_entries w8snap (by decide)
    (describeEntry w8entry).fst (by decide)

/-- C9: with two or more enumerated processes matching the request name
case-insensitively, get_pid returns the pid of the FIRST match in
enumeration order; kennject ignores the pid carried in the request (its
result is identical for any request pid), and it targets the first match:
with OpenProcess denied at the first pid, kennject panics even though a
later entry also matches. -/
theorem get_pid_first_match (pre : List ProcEntry) (e : ProcEntry)
    (rest : List ProcEntry) (name : String)
    (hpre : ∀ x ∈ pre, (x.utf8Valid && eqIgnoreAsciiCase x.szExeFile name) = false)
    (he : (e.utf8Valid && eqIgnoreAsciiCase e.szExeFile name) = true)
    (hdup : ∃ x ∈ rest, (x.utf8Valid && eqIgnoreAsciiCase x.szExeFile name) = true) :
    (get_pid { snapshotOk := true, entries := pre ++ e :: rest } name).fst =
      Except.ok e.th32ProcessID ∧
    (∀ (os : KennjectOS) (pid1 pid2 : Nat) (path : Option String),
      kennject os { name := name, process_id := pid1 } path =
        kennject os { name := name, process_id := pid2 } path) ∧
    (∀ os : KennjectOS,
      os.snap = { snapshotOk := true, entries := pre ++ e :: rest } →
      os.openFull e.th32ProcessID = false →
      ∀ dll : String, hasNulByte dll = false →
      ∀ pid0 : Nat,
        (kennject os { name := name, process_id := pid0 } (some dll)).fst =
          Outcome.panicked) := by
  have hget : (get_pid { snapshotOk := true, entries := pre ++ e :: rest } name).fst =
      Except.ok e.th32ProcessID := by
    rw [get_pid_run _ name rfl (by simp)]
    exact pidLoop_first_match name pre e rest hpre he
  refine ⟨hget, fun os pid1 pid2 path => rfl, ?_⟩
  intro os hsnap hopen dll hnul pid0
  rw [kennject]
  have hget2 : (get_pid os.snap name).fst = Except.ok e.th32ProcessID := by
    rw [hsnap]; exact hget
  simp [hget2, hnul, hopen, open_process]

/-- First matching entry for the C9 witness. -/
def w9a : ProcEntry :=
  { th32ProcessID := 10, szExeFile := "Game.exe", utf8Valid := true,
    openLimited := true, tok := ⟨true, true, 0⟩, archq := ⟨true, 0, 0x8664⟩,
    iconOpenFull := false, iconSome := false }

/-- Second matching entry for the C9 witness, same name up to ASCII case. -/
def w9b : ProcEntry :=
  { th32ProcessID := 20, szExeFile := "game.exe", utf8Valid := true,
    openLimited := true, tok := ⟨true, true, 0⟩, archq := ⟨true, 0, 0x8664⟩,
    iconOpenFull := false, iconSome := false }

/-- Witness for C9: with two case-insensitive matches in the snapshot,
get_pid yields the pid of the first. -/
theorem get_pid_first_match_witness :
    (get_pid { snapshotOk := true, entries := [w9a, w9b] } "GAME.EXE").fst =
      Except.ok 10 :=
  (get_pid_first_match [] w9a [w9b] "GAME.EXE" (by decide) (by decide) (by decide)).1

/-- C10: the remote thread exit code is read into a u32
(kenjector.rs line 98), so the reported load address is the loaded module
base reduced mod 2^32; in particular a 64-bit base whose low 32 bits are
zero reads back as zero and is reported with the loader-ran-but-did-not-load
outcome, never with a success address. -/
theorem kennject_truncates_exit_code (os : KennjectOS) (info : KenjectionInfo)
    (dll : String) (pid : Nat)
    (hpid : (get_pid os.snap info.name).fst = Except.ok pid)
    (hnul : hasNulByte dll = false)
    (hopen : os.openFull pid = true)
    (halloc : os.allocOk = true) (hwrite : os.writeOk = true)
    (hload : os.loadLibraryOk = true) (hthread : os.threadOk = true)
    (hgot : os.getExitOk = true) :
    (os.remoteBase % 4294967296 = 0 →
      (kennject os info (some dll)).fst =
        Outcome.ok "LoadLibraryA failed — did not load DLL.") ∧
    (os.remoteBase % 4294967296 ≠ 0 →
      (kennject os info (some dll)).fst =
        Outcome.ok ("DLL Kenjected successfully at 0x"
          ++ toHexUpper (os.remoteBase % 4294967296))) ∧
    (os.remoteBase ≠ 0 → os.remoteBase % 4294967296 = 0 →
      ∀ m : Nat, (kennject os info (some dll)).fst ≠
        Outcome.ok ("DLL Kenjected successfully at 0x" ++ toHexUpper m)) := by
  have hr := kennject_reach os info dll pid hpid hnul hopen halloc hwrite hload hthread
  rw [hr, if_neg (by simp [hgot])]
  refine ⟨fun hz => if_pos hz, fun hz => if_neg hz, ?_⟩
  intro hb hz m
  rw [if_pos hz]
  intro hcontra
  exact success_msg_ne_load m (Outcome.ok.injEq .. ▸ hcontra).symm

/-- Oracle for the C10 witness: every stage succeeds and the loader
returns the 64-bit base 2^32, whose low 32 bits are zero. -/
def w10os : KennjectOS :=
  { snap := { snapshotOk := true, entries := [w3entry] },
    openFull := fun _ => true, allocOk := true, writeOk := true,
    loadLibraryOk := true, threadOk := true, getExitOk := true,
    remoteBase := 4294967296 }

/-- Witness for C10: base 2^32 is reported as the loader-failure outcome. -/
theorem kennject_truncates_exit_code_witness :
    (kennject w10os { name := "notepad.exe", process_id := 4242 }
      (some "C:\\mod.dll")).fst =
      Outcome.ok "LoadLibraryA failed — did not load DLL." :=
  (kennject_truncates_exit_code w10os { name := "notepad.exe", process_id := 4242 }
    "C:\\mod.dll" 4242 rfl (by decide) rfl rfl rfl rfl rfl rfl).1 (by decide)

end Kenjector
